import Mathlib

/-!
Verification development for the MahiLLM Node proxy (`server.js`,
`src/unnamed/part_001`) and its frontend (`src/public/app.js`).

The embedding models, from the source:
  * the `/api/chat` SSE handler (OpenAI streaming pass-through with mock
    fallback, word-by-word mock generator);
  * the `/api/index` and `/api/query` dispatch (Python assistant first,
    optional gRPC Indexer fallback, 503 `assistant_unavailable` when both
    are disabled);
  * the `/api/plan` mock-plan synthesizer;
  * the frontend approvals construction of `executeLatestPlan` and the
    (spec-modelled) plan-execution gate of the Python assistant.
-/

namespace MahiLLM

/-! ## SSE events of `/api/chat`

`sseWrite(res, JSON.stringify(...))` is called with exactly two shapes of
payload on this route: `{token: w}` and `{done: true}`.  No event carries a
`sequence` field and no event carries an `error` field. -/

inductive SseEvent where
  | tok (s : String)
  | done
deriving DecidableEq, Repr

/-- An entry of the request's `messages` array.  `mrole r c` is an object
with a `role` and an optional `content` property; `mnull` is a `null` (or
`undefined`) entry, on which the handler's `m.role` access throws; `mprim`
is any other value whose `role` property reads as `undefined`. -/
inductive JMsg where
  | mrole (role : String) (content : Option String)
  | mnull
  | mprim
deriving DecidableEq, Repr

/-- The request body's `messages` value: absent / not an array / an array. -/
inductive MsgsVal where
  | absent
  | notArray
  | arr (l : List JMsg)
deriving DecidableEq, Repr

/-- `[...messages].reverse().find(m => m.role === 'user')?.content || ''`,
run on the already-reversed list: accessing `m.role` on a `null` entry
throws a `TypeError` (modelled as `.error ()`), which the handler's outer
`catch` receives. -/
def findUserContent : List JMsg → Except Unit String
  | [] => .ok ""
  | .mnull :: _ => .error ()
  | .mrole r c :: rest =>
      if r = "user" then .ok (c.getD "") else findUserContent rest
  | .mprim :: rest => findUserContent rest

/-- The `lastUser` extraction of the chat handler (lines 44-47 of
`server.js`). -/
def lastUserOf : MsgsVal → Except Unit String
  | .arr l => findUserContent l.reverse
  | _ => .ok ""

/-- The mock reply text chosen by the handler (lines 103-105). -/
def chatReply (lastUser : String) : String :=
  if lastUser ≠ "" then
    "You said: " ++ lastUser ++
      ". Here\x27s a thoughtful, friendly response matching the OpenAI vibe.\n\n- Clean UI\n- Smooth streaming\n- Markdown support\n\nAsk another question!"
  else
    "Hello! Ask me anything. I stream responses like ChatGPT."

/-- Maximal same-class character runs of a string, classified by
whitespace (`true`) versus non-whitespace (`false`). -/
def charRuns : List Char → List (Bool × List Char)
  | [] => []
  | c :: cs =>
    match charRuns cs with
    | [] => [(c.isWhitespace, [c])]
    | (b, run) :: rest =>
        if c.isWhitespace = b then (b, c :: run) :: rest
        else (c.isWhitespace, [c]) :: (b, run) :: rest

/-- JavaScript `text.split(/(\s+)/)`: split on whitespace runs, keeping the
separators; an empty piece appears before a leading separator and after a
trailing one, and splitting the empty string gives `[""]`. -/
def splitKeepSpaces (s : String) : List String :=
  match h : charRuns s.data with
  | [] => [""]
  | first :: more =>
      let pieces := (first :: more).map (fun p => String.mk p.2)
      let withLead := if first.1 then "" :: pieces else pieces
      if ((first :: more).getLast (by simp)).1 then withLead ++ [""] else withLead

/-- The values yielded by the `mockStream` generator (lines 32-38): the
words of the text, whitespace runs included.  The constant 30 ms delay
before each yield affects timing only, never the yielded values. -/
def mockStreamTokens (text : String) : List String :=
  splitKeepSpaces text

/-- The events written on the mock path (lines 107-110): one `{token}`
event per yielded word, then a single `{done: true}`. -/
def mockEvents (text : String) : List SseEvent :=
  (mockStreamTokens text).map SseEvent.tok ++ [SseEvent.done]

/-- One upstream OpenAI SSE data item, as the read loop (lines 75-95)
classifies it: the literal `[DONE]` marker, a parsed delta string, or a
line that is skipped (non-`data:` line, keepalive, parse failure). -/
inductive OAItem where
  | ddone
  | delta (s : String)
  | noise
deriving DecidableEq, Repr

/-- Outcome of the `fetch` to OpenAI: an HTTP-level failure
(`!response.ok || !response.body`, which throws before any event is
written), or a stream of items, with `midFail = true` when `reader.read()`
rejects after the listed items were processed. -/
inductive OAOutcome where
  | httpFail
  | stream (items : List OAItem) (midFail : Bool)
deriving DecidableEq, Repr

/-- Events written while consuming the OpenAI stream, and whether the
`[DONE]` marker was seen (on `[DONE]` the handler writes `{done: true}`
and returns immediately, ignoring everything after it).  An empty delta is
not written (`if (delta) sseWrite(...)`). -/
def processOA : List OAItem → List SseEvent × Bool
  | [] => ([], false)
  | .ddone :: _ => ([SseEvent.done], true)
  | .delta s :: rest =>
      let (evs, sawDone) := processOA rest
      ((if s ≠ "" then [SseEvent.tok s] else []) ++ evs, sawDone)
  | .noise :: rest => processOA rest

/-- The `/api/chat` handler (`app.post('/api/chat', ...)`, lines 41-115 of
`server.js`).  Returns the list of SSE events actually written to the
(already opened) stream, and `true` when the outer `catch` was hit: there
`res.status(500).end()` runs, but the SSE headers were flushed by
`setupSSE` before anything else, so the client sees only an abruptly ended
stream with no further events. -/
def apiChat (apiKey : Option String) (oa : OAOutcome) (msgs : MsgsVal) :
    List SseEvent × Bool :=
  match lastUserOf msgs with
  | .error _ => ([], true)
  | .ok lastUser =>
    let mock := mockEvents (chatReply lastUser)
    match apiKey with
    | none => (mock, false)
    | some _ =>
      match oa with
      | .httpFail => (mock, false)
      | .stream items midFail =>
          let (evs, sawDone) := processOA items
          if sawDone then (evs, false)
          else if midFail then (evs ++ mock, false)
          else (evs ++ [SseEvent.done], false)

/-! ## `/api/index` and `/api/query` dispatch (`src/unnamed/part_001`)

The proxy tries the Python assistant first (when not disabled by
`DISABLE_PYTHON_ASSISTANT=1`), and on failure falls back to the gRPC
Indexer when gRPC wiring is enabled (`USE_ASSISTANT_GRPC=1` with its
dependencies loaded).  There is no failure classification, no health
state and no per-adapter failure counter anywhere in the source: each
request handler consults only the startup configuration flags. -/

/-- Startup configuration (resolved once at process start, lines 18-48).
`grpcServices` is truthy exactly when the proto package loaded and exposed
the `assistant` package. -/
structure Config where
  pythonEnabled : Bool
  grpcEnabled : Bool
  grpcServices : Bool
deriving DecidableEq, Repr

/-- The gate `grpcEnabled && grpcServices` used by every fallback check
(`if (!grpcEnabled || !grpcServices)`). -/
def Config.grpcOn (cfg : Config) : Bool :=
  cfg.grpcEnabled && cfg.grpcServices

/-- Failure classification from the spec's error taxonomy (§7).  The Node
source never inspects it: it is carried through the model only to show
that dispatch decisions are independent of it. -/
inductive FailureClass where
  | preflight
  | ambiguous
  | rejected
deriving DecidableEq, Repr

/-- A failed `callPython` invocation: the thrown error's optional
`status` property plus its (code-invisible) classification. -/
structure PyFailure where
  cls : FailureClass
  status : Option Nat
deriving DecidableEq, Repr

/-- `err?.status || 500`: a missing or zero status becomes 500. -/
def statusOr500 : Option Nat → Nat
  | some s => if s = 0 then 500 else s
  | none => 500

/-- Outcome of a `callPython` invocation. -/
inductive PyOutcome where
  | ok (resp : String)
  | fail (f : PyFailure)
deriving DecidableEq, Repr

/-- Outcome of a gRPC client call (`client.Index` / `client.Query`). -/
inductive GrpcOutcome where
  | ok (resp : String)
  | err (msg : String)
deriving DecidableEq, Repr

/-- The adapters reachable from the index/query routes. -/
inductive Adapter where
  | python
  | grpcIndexer
deriving DecidableEq, Repr

/-- The HTTP response produced by an index/query route. -/
inductive ApiResult where
  | okJson (resp : String)
  | failed (status : Nat) (tag : String)
  | unavailable503
  | grpcOk (resp : String)
  | grpcError (msg : String)
deriving DecidableEq, Repr

/-- `app.post('/api/index', ...)` (lines 350-378): Python first when
enabled; on any Python failure return the error unless gRPC is on, in
which case fall through to the gRPC Indexer; with Python disabled, 503
`assistant_unavailable` unless gRPC is on.  The first component lists the
adapters attempted, in order.  (The request payload is forwarded
unchanged and plays no role in the dispatch decisions, so it is left out
of the model.) -/
def apiIndex (cfg : Config) (py : PyOutcome) (g : GrpcOutcome) :
    List Adapter × ApiResult :=
  if cfg.pythonEnabled then
    match py with
    | .ok r => ([.python], .okJson r)
    | .fail f =>
        if !cfg.grpcOn then
          ([.python], .failed (statusOr500 f.status) "index_failed")
        else
          match g with
          | .ok r => ([.python, .grpcIndexer], .grpcOk r)
          | .err m => ([.python, .grpcIndexer], .grpcError m)
  else
    if !cfg.grpcOn then ([], .unavailable503)
    else
      match g with
      | .ok r => ([.grpcIndexer], .grpcOk r)
      | .err m => ([.grpcIndexer], .grpcError m)

/-! ### JavaScript values for the `topK` handling -/

/-- The subset of JavaScript values relevant to the query body's `k` /
`top_k` properties.  Numeric values are modelled as integers (`jnan` is
`NaN`, also the result of `Number` on a non-numeric string or object). -/
inductive JVal where
  | jundef
  | jnull
  | jnum (n : Int)
  | jnan
  | jstr (s : String)
  | jbool (b : Bool)
deriving DecidableEq, Repr

/-- Result of JavaScript `Number(...)` on a `JVal`. -/
inductive NumVal where
  | int (n : Int)
  | nan
deriving DecidableEq, Repr

/-- JavaScript `Number(v)`: `undefined → NaN`, `null → 0`, strings parse
numerically with the empty/whitespace string giving 0 and non-numeric
strings giving NaN, booleans give 0/1. -/
def jsNumber : JVal → NumVal
  | .jundef => .nan
  | .jnull => .int 0
  | .jnum n => .int n
  | .jnan => .nan
  | .jstr s =>
      if s.trim = "" then .int 0
      else match s.trim.toInt? with
        | some n => .int n
        | none => .nan
  | .jbool b => .int (if b then 1 else 0)

/-- JavaScript falsiness of a number: `0` and `NaN` are falsy. -/
def NumVal.falsy : NumVal → Bool
  | .int n => n = 0
  | .nan => true

/-- JavaScript `a ?? b`: `b` when `a` is `undefined` or `null`. -/
def jsCoalesce (a b : JVal) : JVal :=
  match a with
  | .jundef => b
  | .jnull => b
  | v => v

/-- `top_k: Number(payload.k ?? payload.top_k ?? 5) || 5` (line 387): the
`top_k` sent to the Python assistant. -/
def pythonTopK (k tk : JVal) : NumVal :=
  let v := jsNumber (jsCoalesce k (jsCoalesce tk (.jnum 5)))
  if v.falsy then .int 5 else v

/-- `const { query = '', k = 5 } = req.body || {}` (line 403): the
destructuring default replaces `k` only when it is `undefined`; every
other value — `null`, `0`, a string — is passed to the gRPC Indexer
unchanged. -/
def grpcQueryK (k : JVal) : JVal :=
  match k with
  | .jundef => .jnum 5
  | v => v

/-- One dispatched backend request of the query route, with the `topK`
value it carried. -/
inductive QueryDispatch where
  | toPython (top_k : NumVal)
  | toGrpc (k : JVal)
deriving DecidableEq, Repr

/-- The adapter a dispatch went to. -/
def QueryDispatch.adapter : QueryDispatch → Adapter
  | .toPython _ => .python
  | .toGrpc _ => .grpcIndexer

/-- `app.post('/api/query', ...)` (lines 381-408): same dispatch shape as
the index route, with the bodies the code builds for each backend.  The
first component is the ordered list of dispatched backend requests. -/
def apiQuery (cfg : Config) (k tk : JVal) (py : PyOutcome) (g : GrpcOutcome) :
    List QueryDispatch × ApiResult :=
  if cfg.pythonEnabled then
    match py with
    | .ok r => ([.toPython (pythonTopK k tk)], .okJson r)
    | .fail f =>
        if !cfg.grpcOn then
          ([.toPython (pythonTopK k tk)],
            .failed (statusOr500 f.status) "query_failed")
        else
          match g with
          | .ok r => ([.toPython (pythonTopK k tk), .toGrpc (grpcQueryK k)], .grpcOk r)
          | .err m => ([.toPython (pythonTopK k tk), .toGrpc (grpcQueryK k)], .grpcError m)
  else
    if !cfg.grpcOn then ([], .unavailable503)
    else
      match g with
      | .ok r => ([.toGrpc (grpcQueryK k)], .grpcOk r)
      | .err m => ([.toGrpc (grpcQueryK k)], .grpcError m)

/-- A sequence of query calls against the same process: the source keeps
no state between requests (no failure counter, no health field), so each
call is dispatched from the startup configuration alone. -/
def queryCalls (cfg : Config) (k tk : JVal) (outs : List (PyOutcome × GrpcOutcome)) :
    List (List QueryDispatch × ApiResult) :=
  outs.map (fun o => apiQuery cfg k tk o.1 o.2)

/-- The adapters that a request can possibly reach under a configuration,
in dispatch order; a pure function of the startup flags. -/
def enabledAdapters (cfg : Config) : List Adapter :=
  (if cfg.pythonEnabled then [Adapter.python] else []) ++
  (if cfg.grpcOn then [Adapter.grpcIndexer] else [])

/-! ## `/api/plan` mock-plan synthesizer (lines 237-264) -/

/-- An intermediate `{step, action}` pair pushed by the synthesizer. -/
structure RawStep where
  step : String
  action : String
deriving DecidableEq, Repr

/-- The raw steps assembled from the goal and enabled sources, with the
`Idle` placeholder when nothing applies. -/
def mockPlanRawSteps (goal : String) (sources : List (String × Bool)) :
    List RawStep :=
  let enabled := (sources.filter (fun p => p.2)).map (fun p => p.1)
  let steps :=
    (if goal ≠ "" then [⟨"Understand goal", "Parse: " ++ goal.take 120⟩] else []) ++
    (if enabled.contains "email" then
      [⟨"Email", "Summarize inbox and draft replies"⟩] else []) ++
    (if enabled.contains "calendar" then
      [⟨"Calendar", "Check availability and propose slots"⟩] else []) ++
    (if enabled.contains "messages" then
      [⟨"Messages", "Extract intents from latest threads"⟩] else []) ++
    (if enabled.contains "browser" then
      [⟨"Browser", "Fetch relevant pages from history"⟩] else [])
  if steps.isEmpty then [⟨"Idle", "Await user goal"⟩] else steps

/-- A plan step as the proxy and frontend exchange it. -/
structure PlanStep where
  id : String
  action : String
  description : String
  requires_confirmation : Bool
deriving DecidableEq, Repr

/-- The synthesized fallback plan: step ids `mock-1`, `mock-2`, ..., every
action `noop`, every step auto-approved, `metadata.source = 'mock'`. -/
structure MockPlan where
  status : String
  steps : List PlanStep
  metadataSource : String
deriving DecidableEq, Repr

/-- The mock plan returned when the Python planner call throws and gRPC
wiring is present (lines 250-263). -/
def mockPlan (goal : String) (sources : List (String × Bool)) : MockPlan :=
  { status := "draft"
    steps := (mockPlanRawSteps goal sources).enum.map (fun p =>
      { id := "mock-" ++ toString (p.1 + 1)
        action := "noop"
        description := p.2.step ++ ": " ++ p.2.action
        requires_confirmation := false })
    metadataSource := "mock" }

/-! ## Plan approval and execution -/

/-- The approvals map built by `executeLatestPlan`
(`src/public/app.js`, lines 632-641): a step with
`requires_confirmation = false` is approved `true` without asking; a step
with `requires_confirmation = true` gets the user's `window.confirm`
answer (modelled by the oracle `confirm`). -/
def executeLatestPlanApprovals (steps : List PlanStep)
    (confirm : String → Bool) : List (String × Bool) :=
  steps.map (fun s =>
    (s.id, if s.requires_confirmation then confirm s.id else true))

/-- Plan status for the execution gate. -/
inductive PlanStatus where
  | awaitingApproval
  | executing
deriving DecidableEq, Repr

/-- Modelled from the spec: the `/v1/task/execute` plan executor lives in
the Python FastAPI assistant, which is not part of this source snapshot
(only its Node proxy `app.post('/api/task/execute')` and its frontend
caller are).  Per spec §3 (Approval) and §4.5: execution begins iff every
step with `requires_confirmation = true` has an approvals entry and that
entry is `true`; steps with `requires_confirmation = false` are
implicitly approved. -/
def canExecute (steps : List PlanStep) (approvals : List (String × Bool)) :
    Bool :=
  steps.all (fun s =>
    !s.requires_confirmation || approvals.lookup s.id == some true)

/-- Modelled from the spec: the `AwaitingApproval → Executing` transition
(§4.5) — the plan moves to `Executing` exactly when `canExecute` holds,
and otherwise stays `AwaitingApproval`. -/
def planTransition (steps : List PlanStep)
    (approvals : List (String × Bool)) : PlanStatus :=
  if canExecute steps approvals then .executing else .awaitingApproval

/-- The fully-enabled configuration: Python assistant up, gRPC wiring
loaded. -/
def cfgAll : Config := ⟨true, true, true⟩

/-! ## Helper lemmas -/

theorem processOA_done_count (items : List OAItem) :
    (processOA items).1.count SseEvent.done =
      (if (processOA items).2 then 1 else 0) := by
  induction items with
  | nil => simp [processOA]
  | cons i rest ih =>
    cases i with
    | ddone => simp [processOA]
    | delta s =>
      simp only [processOA]
      rw [List.count_append]
      have hz : (if s ≠ "" then [SseEvent.tok s] else []).count SseEvent.done = 0 := by
        split <;> simp [List.count_cons, List.count_nil]
      rw [hz]
      simpa using ih
    | noise => simpa [processOA] using ih

theorem processOA_getLast (items : List OAItem)
    (h : (processOA items).2 = true) :
    (processOA items).1.getLast? = some SseEvent.done := by
  induction items with
  | nil => simp [processOA] at h
  | cons i rest ih =>
    cases i with
    | ddone => simp [processOA]
    | delta s =>
      simp only [processOA] at h ⊢
      have hlast := ih h
      have hne : (processOA rest).1 ≠ [] := by
        intro hnil
        rw [hnil] at hlast
        simp at hlast
      rw [List.getLast?_append_of_ne_nil _ hne]
      exact hlast
    | noise =>
      simp only [processOA] at h ⊢
      exact ih h

theorem mockEvents_done_count (t : String) :
    (mockEvents t).count SseEvent.done = 1 := by
  unfold mockEvents
  rw [List.count_append]
  have hz : ((mockStreamTokens t).map SseEvent.tok).count SseEvent.done = 0 := by
    rw [List.count_eq_zero]
    intro hmem
    obtain ⟨s, _, hs⟩ := List.mem_map.mp hmem
    exact SseEvent.noConfusion hs
  rw [hz]
  simp

theorem mockEvents_getLast (t : String) :
    (mockEvents t).getLast? = some SseEvent.done := by
  unfold mockEvents
  rw [List.getLast?_append_of_ne_nil _ (by simp)]
  rfl

theorem mockEvents_ne_nil (t : String) : mockEvents t ≠ [] := by
  unfold mockEvents
  simp

/-! ## Claim C2 -/

/-- C2, counterexample.  A `messages` array containing a `null` entry makes
the handler body throw after the SSE stream was opened (`setupSSE` runs
first and flushes the headers): the outer `catch` ends the response, and
the client receives a stream with no events at all — in particular zero
terminal `{done: true}` events, refuting "exactly one terminal token ...
always eventually delivered whether the stream ends in success, error, or
cancellation". -/
theorem chat_null_entry_delivers_no_terminal :
    apiChat none OAOutcome.httpFail (MsgsVal.arr [JMsg.mnull]) = ([], true) ∧
    (apiChat none OAOutcome.httpFail (MsgsVal.arr [JMsg.mnull])).1.count
      SseEvent.done = 0 :=
  ⟨rfl, rfl⟩

/-- C2, amended: the events of `/api/chat` carry no explicit `sequence`
field — tokens are delivered in generation order (their implicit sequence
number is their position).  On every run in which the handler body does
not throw, exactly one terminal `{done: true}` event is delivered and it
is the last event; when the body throws (e.g. a `null` entry in
`messages`) the stream ends with no terminal event. -/
theorem chat_terminal_unique_and_last (apiKey : Option String)
    (oa : OAOutcome) (msgs : MsgsVal)
    (h : (apiChat apiKey oa msgs).2 = false) :
    (apiChat apiKey oa msgs).1.count SseEvent.done = 1 ∧
    (apiChat apiKey oa msgs).1.getLast? = some SseEvent.done := by
  unfold apiChat at h ⊢
  cases hlu : lastUserOf msgs with
  | error e => simp [hlu] at h
  | ok lastUser =>
    simp only [hlu]
    cases apiKey with
    | none => exact ⟨mockEvents_done_count _, mockEvents_getLast _⟩
    | some key =>
      cases oa with
      | httpFail => exact ⟨mockEvents_done_count _, mockEvents_getLast _⟩
      | stream items midFail =>
        simp only
        cases hsaw : (processOA items).2 with
        | true =>
          simp only [hsaw, if_true]
          have hc := processOA_done_count items
          rw [hsaw] at hc
          exact ⟨by simpa using hc, processOA_getLast items hsaw⟩
        | false =>
          have hc := processOA_done_count items
          rw [hsaw] at hc
          simp only [hsaw, if_false, Bool.false_eq_true]
          cases midFail with
          | true =>
            simp only [if_true]
            constructor
            · rw [List.count_append, hc, mockEvents_done_count]
              decide
            · rw [List.getLast?_append_of_ne_nil _ (mockEvents_ne_nil _)]
              exact mockEvents_getLast _
          | false =>
            simp only [Bool.false_eq_true, if_false]
            constructor
            · rw [List.count_append, hc]
              decide
            · rw [List.getLast?_append_of_ne_nil _ (by simp)]
              rfl

/-- Witness for `chat_terminal_unique_and_last` at a concrete run. -/
theorem chat_terminal_unique_and_last_witness :
    (apiChat none OAOutcome.httpFail (MsgsVal.arr [])).2 = false ∧
    ((apiChat none OAOutcome.httpFail (MsgsVal.arr [])).1.count
        SseEvent.done = 1 ∧
      (apiChat none OAOutcome.httpFail (MsgsVal.arr [])).1.getLast? =
        some SseEvent.done) :=
  ⟨rfl, chat_terminal_unique_and_last none OAOutcome.httpFail (MsgsVal.arr []) rfl⟩

/-! ## Claim C5 -/

/-- C5, counterexample.  With an OpenAI key configured, the upstream
stream delivers one token (`hi`) and then fails mid-read.  The handler
does not surface any error (the run completes normally, falling back to
the mock generator), and its terminal event is the plain `{done: true}` —
the very same terminal value a fully successful run produces.  No
delivered event has an error field (the route only ever writes `{token}`
and `{done: true}` events), so the failure is NOT encoded in the terminal
token's error field, refuting the second half of the claim. -/
theorem chat_midstream_failure_not_encoded :
    (apiChat (some "k") (OAOutcome.stream [OAItem.delta "hi"] true)
        (MsgsVal.arr [])).2 = false ∧
    (apiChat (some "k") (OAOutcome.stream [OAItem.delta "hi"] true)
        (MsgsVal.arr [])).1.head? = some (SseEvent.tok "hi") ∧
    (apiChat (some "k") (OAOutcome.stream [OAItem.delta "hi"] true)
        (MsgsVal.arr [])).1.getLast? = some SseEvent.done ∧
    (apiChat (some "k") (OAOutcome.stream [OAItem.delta "hi"] false)
        (MsgsVal.arr [])).1.getLast? = some SseEvent.done :=
  ⟨rfl, rfl, by rfl, by rfl⟩

/-- C5, amended: once the stream is open, a mid-stream upstream failure is
never surfaced as an out-of-band exception or error status — the handler
falls back to the mock generator and the stream terminates with the plain
`{done: true}` terminal event; but no error field exists on any event, so
the failure is not encoded in the terminal token either.  Concretely: when
the OpenAI stream fails after delivering `items` (no `[DONE]` seen), the
delivered events are the upstream tokens followed by the full mock reply
and a single plain terminal. -/
theorem chat_midstream_failure_plain_terminal (key : String)
    (items : List OAItem) (msgs : MsgsVal) (lu : String)
    (h1 : lastUserOf msgs = .ok lu)
    (h2 : (processOA items).2 = false) :
    (apiChat (some key) (OAOutcome.stream items true) msgs).2 = false ∧
    (apiChat (some key) (OAOutcome.stream items true) msgs).1 =
      (processOA items).1 ++ mockEvents (chatReply lu) ∧
    (apiChat (some key) (OAOutcome.stream items true) msgs).1.getLast? =
      some SseEvent.done := by
  unfold apiChat
  simp only [h1, h2, Bool.false_eq_true, if_false, if_true]
  refine ⟨trivial, trivial, ?_⟩
  rw [List.getLast?_append_of_ne_nil _ (mockEvents_ne_nil _)]
  exact mockEvents_getLast _

/-- Witness for `chat_midstream_failure_plain_terminal` at a concrete
run. -/
theorem chat_midstream_failure_plain_terminal_witness :
    lastUserOf (MsgsVal.arr []) = .ok "" ∧
    (processOA [OAItem.delta "hi"]).2 = false ∧
    ((apiChat (some "k") (OAOutcome.stream [OAItem.delta "hi"] true)
          (MsgsVal.arr [])).2 = false ∧
      (apiChat (some "k") (OAOutcome.stream [OAItem.delta "hi"] true)
          (MsgsVal.arr [])).1 =
        (processOA [OAItem.delta "hi"]).1 ++ mockEvents (chatReply "") ∧
      (apiChat (some "k") (OAOutcome.stream [OAItem.delta "hi"] true)
          (MsgsVal.arr [])).1.getLast? = some SseEvent.done) :=
  ⟨rfl, rfl,
    chat_midstream_failure_plain_terminal "k" [OAItem.delta "hi"]
      (MsgsVal.arr []) "" rfl rfl⟩

/-! ## Claim C8 -/

/-- C8: the mock chat path is deterministic.  With no OpenAI key
configured, the events written by `/api/chat` are a pure function of the
`messages` value: two runs with the same messages but arbitrary differing
external conditions (modelled by the upstream outcome, which the keyless
path never consults; the constant 30 ms delay of `mockStream` affects
timing only) deliver identical token events and the identical terminal
event. -/
theorem mock_chat_deterministic (msgs : MsgsVal) (oa1 oa2 : OAOutcome) :
    apiChat none oa1 msgs = apiChat none oa2 msgs := by
  unfold apiChat
  cases lastUserOf msgs <;> rfl

/-! ## Claim C1 -/

/-- C1, counterexample.  With the Python assistant and gRPC both enabled,
an Ambiguous failure of the Python adapter on `/api/index` (a mutating
capability) makes the route fall through to the gRPC Indexer: the call
attempts a second adapter, refuting "the dispatcher never advances to a
second adapter ... the error is returned to the caller instead". -/
theorem index_ambiguous_failure_advances :
    apiIndex cfgAll (PyOutcome.fail ⟨FailureClass.ambiguous, none⟩)
        (GrpcOutcome.ok "r") =
      ([Adapter.python, Adapter.grpcIndexer], ApiResult.grpcOk "r") :=
  rfl

/-- C1, amended: the index route performs no failure classification.  On
ANY Python-assistant failure — Ambiguous included — it advances to the
gRPC Indexer whenever gRPC wiring is enabled; the error is returned to
the caller only when gRPC is disabled. -/
theorem index_failure_fallback_policy (cfg : Config) (f : PyFailure)
    (g : GrpcOutcome) (hp : cfg.pythonEnabled = true) :
    (cfg.grpcOn = true →
      (apiIndex cfg (PyOutcome.fail f) g).1 =
        [Adapter.python, Adapter.grpcIndexer]) ∧
    (cfg.grpcOn = false →
      apiIndex cfg (PyOutcome.fail f) g =
        ([Adapter.python],
          ApiResult.failed (statusOr500 f.status) "index_failed")) := by
  constructor
  · intro hg
    cases g <;> simp [apiIndex, hp, hg]
  · intro hg
    simp [apiIndex, hp, hg]

/-- Witness for `index_failure_fallback_policy` at concrete inputs. -/
theorem index_failure_fallback_policy_witness :
    (apiIndex cfgAll
        (PyOutcome.fail ⟨FailureClass.ambiguous, some 504⟩)
        (GrpcOutcome.ok "r")).1 = [Adapter.python, Adapter.grpcIndexer] :=
  (index_failure_fallback_policy cfgAll ⟨FailureClass.ambiguous, some 504⟩
    (GrpcOutcome.ok "r") rfl).1 rfl

/-! ## Claim C4 -/

/-- C4: on both `/api/index` and `/api/query`, the 503
`assistant_unavailable` response is produced if and only if every adapter
for the capability is disabled (the Python assistant by
`DISABLE_PYTHON_ASSISTANT=1`, the gRPC Indexer by gRPC wiring being off)
— equivalently, iff the enabled-adapter list is empty.  No health states
exist in the source, so "Unhealthy or disabled" reduces to disabled, and
no fallback generator is registered for these capabilities. -/
theorem unavailable_iff_all_adapters_disabled (cfg : Config)
    (py : PyOutcome) (g : GrpcOutcome) (k tk : JVal) :
    ((apiIndex cfg py g).2 = ApiResult.unavailable503 ↔
      enabledAdapters cfg = []) ∧
    ((apiQuery cfg k tk py g).2 = ApiResult.unavailable503 ↔
      enabledAdapters cfg = []) := by
  obtain ⟨p, ge, gs⟩ := cfg
  cases p <;> cases ge <;> cases gs <;> cases py <;> cases g <;>
    simp [apiIndex, apiQuery, enabledAdapters, Config.grpcOn]

/-! ## Claim C6 -/

/-- C6: `/api/query` (read-only) advances transparently through the
adapters in order.  With both adapters enabled: a Python success is
returned directly with no second attempt; a Python failure of ANY class
advances to the gRPC Indexer, whose success is returned and whose failure
exhausts the chain and surfaces as the gRPC error. -/
theorem query_advances_until_success_or_exhausted (cfg : Config)
    (k tk : JVal) (f : PyFailure)
    (hp : cfg.pythonEnabled = true) (hg : cfg.grpcOn = true) :
    (∀ r g, apiQuery cfg k tk (PyOutcome.ok r) g =
      ([QueryDispatch.toPython (pythonTopK k tk)], ApiResult.okJson r)) ∧
    (∀ g, ((apiQuery cfg k tk (PyOutcome.fail f) g).1.map
      QueryDispatch.adapter) = [Adapter.python, Adapter.grpcIndexer]) ∧
    (∀ r, (apiQuery cfg k tk (PyOutcome.fail f) (GrpcOutcome.ok r)).2 =
      ApiResult.grpcOk r) ∧
    (∀ m, (apiQuery cfg k tk (PyOutcome.fail f) (GrpcOutcome.err m)).2 =
      ApiResult.grpcError m) := by
  refine ⟨fun r g => ?_, fun g => ?_, fun r => ?_, fun m => ?_⟩
  · simp [apiQuery, hp]
  · cases g <;> simp [apiQuery, hp, hg, QueryDispatch.adapter]
  · simp [apiQuery, hp, hg]
  · simp [apiQuery, hp, hg]

/-- Witness for `query_advances_until_success_or_exhausted` at concrete
inputs. -/
theorem query_advances_witness :
    ((apiQuery cfgAll (JVal.jnum 3) JVal.jundef
        (PyOutcome.fail ⟨FailureClass.ambiguous, none⟩)
        (GrpcOutcome.ok "g")).1.map QueryDispatch.adapter) =
      [Adapter.python, Adapter.grpcIndexer] :=
  (query_advances_until_success_or_exhausted cfgAll (JVal.jnum 3)
    JVal.jundef ⟨FailureClass.ambiguous, none⟩ rfl rfl).2.1
    (GrpcOutcome.ok "g")

/-! ## Claim C7 -/

/-- C7, counterexample.  The source keeps no per-adapter failure counter:
after three consecutive Python failures, the fourth call still attempts
the Python adapter (and again falls back to gRPC) — the adapter is never
marked Unhealthy and never excluded from dispatch, refuting the K=3
circuit-breaker behaviour. -/
theorem no_exclusion_after_three_failures :
    (queryCalls cfgAll (JVal.jnum 3) JVal.jundef
        (List.replicate 4
          (PyOutcome.fail ⟨FailureClass.ambiguous, none⟩,
            GrpcOutcome.ok "g"))).map
      (fun c => c.1.map QueryDispatch.adapter) =
      List.replicate 4 [Adapter.python, Adapter.grpcIndexer] := by
  decide

/-- C7, amended: the proxy maintains no health state at all.  Every call
in any sequence of requests dispatches from the startup configuration
alone: the first adapter attempted is always the head of the (fixed)
enabled-adapter list, regardless of how many earlier calls failed. -/
theorem dispatch_candidates_history_independent (cfg : Config)
    (k tk : JVal) (outs : List (PyOutcome × GrpcOutcome)) :
    (queryCalls cfg k tk outs).map
        (fun c => (c.1.map QueryDispatch.adapter).head?) =
      outs.map (fun _ => (enabledAdapters cfg).head?) := by
  unfold queryCalls
  rw [List.map_map]
  apply List.map_congr_left
  intro o _
  obtain ⟨po, go⟩ := o
  obtain ⟨p, ge, gs⟩ := cfg
  cases p <;> cases ge <;> cases gs <;> cases po <;> cases go <;>
    simp [apiQuery, enabledAdapters, Config.grpcOn, QueryDispatch.adapter]

/-! ## Claim C10 -/

/-- C10, counterexample.  With the Python assistant disabled and gRPC
enabled, a query whose body has `k = 0` is dispatched to the gRPC Indexer
with `k = 0`: the destructuring default `k = 5` only replaces `undefined`,
so the dispatched topK IS 0, refuting "the dispatched top_k is never
0". -/
theorem grpc_query_dispatches_topk_zero :
    apiQuery ⟨false, true, true⟩ (JVal.jnum 0) JVal.jundef
        (PyOutcome.ok "x") (GrpcOutcome.ok "g") =
      ([QueryDispatch.toGrpc (JVal.jnum 0)], ApiResult.grpcOk "g") :=
  rfl

/-- C10, amended: on the Python-assistant dispatch, a `topK` that is
missing (`k` and `top_k` both undefined/null) or whose coerced number is
falsy (0 or NaN, i.e. non-numeric) yields `top_k = 5`, and the Python
dispatch is never sent `top_k = 0`; the gRPC fallback dispatch, by
contrast, substitutes 5 only for `undefined` and passes `k = 0` through
unchanged. -/
theorem python_topk_defaulting (k tk : JVal)
    (h : ((k = JVal.jundef ∨ k = JVal.jnull) ∧
          (tk = JVal.jundef ∨ tk = JVal.jnull)) ∨
         (jsNumber (jsCoalesce k (jsCoalesce tk (JVal.jnum 5)))).falsy = true) :
    pythonTopK k tk = NumVal.int 5 ∧
    (∀ a b : JVal, pythonTopK a b ≠ NumVal.int 0) ∧
    grpcQueryK JVal.jundef = JVal.jnum 5 ∧
    grpcQueryK (JVal.jnum 0) = JVal.jnum 0 := by
  refine ⟨?_, ?_, rfl, rfl⟩
  · rcases h with ⟨hk, htk⟩ | hfalsy
    · rcases hk with rfl | rfl <;> rcases htk with rfl | rfl <;> rfl
    · dsimp only [pythonTopK]
      rw [if_pos hfalsy]
  · intro a b
    dsimp only [pythonTopK]
    cases hv : (jsNumber (jsCoalesce a (jsCoalesce b (JVal.jnum 5)))).falsy
    · rw [if_neg (by simp [hv])]
      intro habs
      rw [habs] at hv
      simp [NumVal.falsy] at hv
    · simp

/-- Witness for `python_topk_defaulting` at a concrete input. -/
theorem python_topk_defaulting_witness :
    (((JVal.jnum 0 : JVal) = JVal.jundef ∨ (JVal.jnum 0 : JVal) = JVal.jnull) ∧
        ((JVal.jundef : JVal) = JVal.jundef ∨ (JVal.jundef : JVal) = JVal.jnull) ∨
      (jsNumber (jsCoalesce (JVal.jnum 0)
          (jsCoalesce JVal.jundef (JVal.jnum 5)))).falsy = true) ∧
    pythonTopK (JVal.jnum 0) JVal.jundef = NumVal.int 5 :=
  ⟨Or.inr rfl,
    (python_topk_defaulting (JVal.jnum 0) JVal.jundef (Or.inr rfl)).1⟩

/-! ## Claim C3 -/

/-- C3: for a plan with steps `s1` (`requires_confirmation = false`) and
`s2` (`requires_confirmation = true`), whatever the steps' actions and
descriptions: approvals `{s2: true}` alone let execution proceed (`s1` is
implicitly approved), while `{s2: false}` and the empty map leave the
plan awaiting approval. -/
theorem plan_approval_gate (a1 d1 a2 d2 : String) :
    planTransition [⟨"s1", a1, d1, false⟩, ⟨"s2", a2, d2, true⟩]
        [("s2", true)] = PlanStatus.executing ∧
    planTransition [⟨"s1", a1, d1, false⟩, ⟨"s2", a2, d2, true⟩]
        [("s2", false)] = PlanStatus.awaitingApproval ∧
    planTransition [⟨"s1", a1, d1, false⟩, ⟨"s2", a2, d2, true⟩]
        [] = PlanStatus.awaitingApproval :=
  ⟨rfl, rfl, rfl⟩

/-! ## Claim C9 -/

/-- C9: every step of the synthesized fallback plan has
`requires_confirmation = false` and action `noop`, and the plan is tagged
`metadata.source = 'mock'`: a synthesized plan never contains a step that
requires human approval. -/
theorem mock_plan_steps_auto_approved (goal : String)
    (sources : List (String × Bool)) :
    ((mockPlan goal sources).steps.all
      (fun s => !s.requires_confirmation && (s.action == "noop"))) = true ∧
    (mockPlan goal sources).metadataSource = "mock" := by
  constructor
  · unfold mockPlan
    simp only [List.all_eq_true]
    intro s hs
    obtain ⟨p, _, rfl⟩ := List.mem_map.mp hs
    rfl
  · rfl

end MahiLLM
